import Mathlib

/-!
Verification of the protontricks metadata-resolution engine
(`src/protontricks/steam.py`) against its natural-language specification.

The Python source is shallowly embedded: filesystem state is an explicit
`FS` value, parsed VDF documents are `VDFVal` trees, Python exceptions
become `Except PyErr`, and machine integers are `Nat` with explicit
masking where overflow matters.  Source line numbers in the doc comments
refer to `src/protontricks/steam.py`.
-/

set_option maxRecDepth 4000

/-- Python exception kinds that the embedded code can raise.  Each
constructor corresponds to a concrete Python exception class. -/
inductive PyErr where
  | keyErr        -- KeyError
  | typeErr       -- TypeError
  | attrErr       -- AttributeError
  | nameErr       -- NameError / UnboundLocalError
  | synErr        -- SyntaxError (raised by vdf.loads / bad magic)
  | osErr         -- OSError
  | valueErr      -- ValueError (e.g. int() on a non-numeric string)
  | unicodeErr    -- UnicodeDecodeError
  | structErr     -- struct.error (short read in struct.unpack)
deriving DecidableEq, Repr

/-- A parsed VDF document value: the external parser's `Document` type.
Per the spec, values are strings, integers, nested documents (mappings)
or lists.  Mappings are modelled as association lists in Python dict
iteration (= insertion) order. -/
inductive VDFVal where
  | str  : String → VDFVal
  | int  : Nat → VDFVal
  | list : List VDFVal → VDFVal
  | dict : List (String × VDFVal) → VDFVal
deriving Repr

mutual

/-- Structural equality on VDF values, modelling Python `==` on parsed
document values.  (Python dict equality ignores key order; the engine
only ever compares strings, where the two notions agree.) -/
def VDFVal.beq : VDFVal → VDFVal → Bool
  | .str a, .str b => a == b
  | .int a, .int b => a == b
  | .list a, .list b => VDFVal.beqList a b
  | .dict a, .dict b => VDFVal.beqDict a b
  | _, _ => false

/-- Elementwise equality of VDF value lists. -/
def VDFVal.beqList : List VDFVal → List VDFVal → Bool
  | [], [] => true
  | a :: as, b :: bs => VDFVal.beq a b && VDFVal.beqList as bs
  | _, _ => false

/-- Elementwise equality of VDF dict entry lists. -/
def VDFVal.beqDict : List (String × VDFVal) → List (String × VDFVal) → Bool
  | [], [] => true
  | (ka, va) :: as, (kb, vb) :: bs =>
    ka == kb && VDFVal.beq va vb && VDFVal.beqDict as bs
  | _, _ => false

end

instance : BEq VDFVal := ⟨VDFVal.beq⟩

/-- Lookup in a modelled Python dict.  Python dict assignment is
last-wins on duplicate keys, so we return the last matching binding. -/
def lastLookup (d : List (String × VDFVal)) (k : String) : Option VDFVal :=
  (d.reverse.find? (fun kv => kv.1 == k)).map (fun kv => kv.2)

/-- Python `d[k]` item access on a VDF value: a `KeyError` when the key
is missing from a dict, a `TypeError` when the value is not a dict
(string/int/list indices are not string keys). -/
def getItem (v : VDFVal) (k : String) : Except PyErr VDFVal :=
  match v with
  | .dict d =>
    match lastLookup d k with
    | some r => .ok r
    | none => .error .keyErr
  | _ => .error .typeErr

/-- Chained Python item access `v[k1][k2]...`. -/
def getItemChain (v : VDFVal) : List String → Except PyErr VDFVal
  | [] => .ok v
  | k :: rest => do getItemChain (← getItem v k) rest

/-- Python `d.get(k, None)` on a VDF value: `AttributeError` when the
receiver is not a dict. -/
def pyGet (v : VDFVal) (k : String) : Except PyErr (Option VDFVal) :=
  match v with
  | .dict d => .ok (lastLookup d k)
  | _ => .error .attrErr

/-- Python `d.get(k, default)` on a VDF value. -/
def pyGetD (v : VDFVal) (k : String) (dflt : VDFVal) : Except PyErr VDFVal :=
  match v with
  | .dict d => .ok ((lastLookup d k).getD dflt)
  | _ => .error .attrErr

/-- Python truthiness of a VDF value. -/
def vdfTruthyV : VDFVal → Bool
  | .str s => s ≠ ""
  | .int n => n ≠ 0
  | .list l => !l.isEmpty
  | .dict d => !d.isEmpty

/-- Python truthiness of an optional VDF value (`None` is falsy). -/
def vdfTruthy : Option VDFVal → Bool
  | none => false
  | some v => vdfTruthyV v

/-- Python `==` between a VDF value and a Python string (comparisons of
a string against a non-string are `False`). -/
def vdfEqStr (v : VDFVal) (s : String) : Bool :=
  match v with
  | .str t => t == s
  | _ => false

/-- Python `str(x)` on an optional integer (`str(None) = "None"`), as
used in `config.get(str(appid), ...)`. -/
def pyStr : Option Nat → String
  | some n => toString n
  | none => "None"

/-- Python truthiness of `os.environ.get(VAR)`: falsy when the variable
is unset or set to the empty string. -/
def envTruthy : Option String → Bool
  | none => false
  | some s => s ≠ ""

/-- `os.path.join(a, b)` for the relative/absolute-free paths used by
the engine: `join("", b) = b`, otherwise `a ++ "/" ++ b`. -/
def pjoin (a b : String) : String :=
  if a = "" then b else a ++ "/" ++ b

/-- `os.path.split(path)[0]`: everything before the final slash
(the empty string when the path has no slash). -/
def dirname (p : String) : String :=
  String.intercalate "/" (p.splitOn "/").dropLast

/-- Python `str.isdigit` restricted to ASCII decimal digits (the only
digits the claims are concerned with; Python additionally accepts other
Unicode digit characters). -/
def isDigitString (s : String) : Bool :=
  s ≠ "" && s.toList.all Char.isDigit

/-- Result of Python `open(path).read()` in text mode. -/
inductive ReadRes where
  | content : String → ReadRes  -- successful read
  | decodeErr : ReadRes         -- UnicodeDecodeError while reading
  | osErr : ReadRes             -- OSError (missing file etc.)
deriving DecidableEq, Repr

/-- The filesystem state an engine call observes: directory-existence,
path-existence, the user's home directory and text-file contents. -/
structure FS where
  isDir : String → Bool
  pathExists : String → Bool
  home : String
  readFile : String → ReadRes

/-- `SteamApp` (steam.py lines 29-48): one installed application or
runtime-like entity.  The Python attribute `prefix_path` is named
`pfx_path` here. -/
structure SteamApp where
  appid : Option Nat
  name : String
  pfx_path : Option String
  install_path : String
deriving DecidableEq, Repr

/-- `SteamApp.__init__` (line 45): `self.appid = int(appid) if appid
else None` — a zero appid is falsy in Python and is stored as `None`. -/
def SteamApp.init (name : String) (install_path : String)
    (pfx_path : Option String) (appid : Option Nat) : SteamApp :=
  { appid :=
      match appid with
      | some n => if n ≠ 0 then some n else none
      | none => none
    name := name
    pfx_path := pfx_path
    install_path := install_path }

/-- `SteamApp.prefix_path_exists` (lines 50-64): the sandbox is usable
only if the prefix directory exists and the sibling `pfx.lock` marker
exists. -/
def SteamApp.pfx_path_exists (fs : FS) (app : SteamApp) : Bool :=
  match app.pfx_path with
  | none => false
  | some pp =>
    fs.pathExists pp && fs.pathExists (pjoin (pjoin pp "..") "pfx.lock")

/-- `SteamApp.is_proton` (lines 85-92): the install directory contains a
file named `proton`. -/
def SteamApp.is_proton (fs : FS) (app : SteamApp) : Bool :=
  fs.pathExists (pjoin app.install_path "proton")

/-! ## CRC-32 and the synthetic shortcut id (steam.py lines 621-636) -/

/-- One bit-step of the reflected CRC-32 update (polynomial
`0xEDB88320`), as computed by `zlib.crc32`. -/
def crc32Step (r : Nat) : Nat :=
  if r % 2 = 1 then (r >>> 1) ^^^ 0xEDB88320 else r >>> 1

/-- Fold one input byte into the CRC-32 register. -/
def crc32Byte (r b : Nat) : Nat :=
  crc32Step^[8] (r ^^^ (b % 256))

/-- `zlib.crc32(data)`: standard CRC-32 with initial value `0xFFFFFFFF`
and final complement. -/
def crc32 (data : List Nat) : Nat :=
  0xffffffff ^^^ data.foldl crc32Byte 0xffffffff

/-- `get_appid_from_shortcut(target, name)` (lines 621-636).  `target`
and `name` are the UTF-8 byte encodings of the Python strings; the
Python `b"".join([...])` is list append. -/
def get_appid_from_shortcut (target name : List Nat) : Nat :=
  let data := target ++ name
  let result := crc32 data &&& 0xffffffff
  let result := result ||| 0x80000000
  let result := (result <<< 32) ||| 0x02000000
  result >>> 32

/-! ## Install-root locator (steam.py lines 147-207) -/

/-- `has_steamapps_dir` (lines 156-166): either historical casing of the
app-storage subdirectory exists. -/
def has_steamapps_dir (fs : FS) (path : String) : Bool :=
  fs.isDir (pjoin path "steamapps") || fs.isDir (pjoin path "SteamApps")

/-- `has_runtime_dir` (lines 168-169). -/
def has_runtime_dir (fs : FS) (path : String) : Bool :=
  fs.isDir (pjoin path "ubuntu12_32")

/-- `COMMON_STEAM_DIRS` (lines 21-24). -/
def COMMON_STEAM_DIRS : List String :=
  [pjoin ".steam" "steam", pjoin (pjoin ".local" "share") "Steam"]

/-- The probing loop over `COMMON_STEAM_DIRS` (lines 195-207). -/
def probeCommonDirs (fs : FS) (steam_root : Option String) :
    List String → Option String × Option String
  | [] => (none, none)
  | d :: rest =>
    let steam_path := pjoin fs.home d
    if has_steamapps_dir fs steam_path then
      (some steam_path, some (steam_root.getD steam_path))
    else probeCommonDirs fs steam_root rest

/-- `find_steam_path` (lines 147-207).  `env_steam_dir` is
`os.environ.get("STEAM_DIR")` (`none` = unset).  Returns
`(steam_path, steam_root)`. -/
def find_steam_path (env_steam_dir : Option String) (fs : FS) :
    Option String × Option String :=
  let steam_root0 := pjoin (pjoin fs.home ".steam") "root"
  let steam_root : Option String :=
    if fs.isDir (pjoin steam_root0 "ubuntu12_32") then some steam_root0
    else none
  if envTruthy env_steam_dir then
    let steam_path := env_steam_dir.getD ""
    if has_steamapps_dir fs steam_path && has_runtime_dir fs steam_path then
      (some steam_path, some steam_path)
    else (none, none)
  else probeCommonDirs fs steam_root COMMON_STEAM_DIRS

/-! ## Library enumeration (steam.py lines 496-534) -/

/-- `parse_library_folders` (lines 501-516): take the values of every
digit-string top-level key of the `LibraryFolders` mapping, in mapping
iteration order (the source performs no sort).  `loads` is the external
`vdf.loads` text parser, returning the top-level dict entries (`none`
models a `SyntaxError`). -/
def parse_library_folders (loads : String → Option (List (String × VDFVal)))
    (data : String) : Except PyErr (List VDFVal) :=
  match loads data with
  | none => .error .synErr
  | some vdf_data =>
    match lastLookup vdf_data "LibraryFolders" with
    | none => .error .keyErr
    | some (.dict entries) =>
      .ok ((entries.filter (fun kv => isDigitString kv.1)).map (fun kv => kv.2))
    | some _ => .error .attrErr

/-- `get_steam_lib_paths` (lines 496-534).  When neither `steamapps` nor
`SteamApps` exists under `steam_path`, the Python local
`folders_vdf_path` is never bound and the later `open()` raises an
unhandled `NameError` (not caught by the `except OSError`). -/
def get_steam_lib_paths (fs : FS)
    (loads : String → Option (List (String × VDFVal)))
    (steam_path : String) : Except PyErr (List VDFVal) :=
  let folders_vdf_path : Option String :=
    if fs.isDir (pjoin steam_path "steamapps") then
      some (pjoin (pjoin steam_path "steamapps") "libraryfolders.vdf")
    else if fs.isDir (pjoin steam_path "SteamApps") then
      some (pjoin (pjoin steam_path "SteamApps") "libraryfolders.vdf")
    else none
  match folders_vdf_path with
  | none => .error .nameErr
  | some p =>
    match fs.readFile p with
    | .osErr => .ok [VDFVal.str steam_path]      -- except OSError: []
    | .decodeErr => .error .unicodeErr           -- not an OSError: uncaught
    | .content s =>
      match parse_library_folders loads s with
      | .error e => .error e
      | .ok library_folders => .ok (VDFVal.str steam_path :: library_folders)

/-! ## Application inventory (steam.py lines 94-144, 442-458, 696-737) -/

/-- `find_appid_proton_prefix` (lines 442-458), renamed to `pfx`:
probe every library under both `steamapps` casings for
`library/<casing>/compatdata/<appid>/pfx`, first existing directory
wins. -/
def find_appid_proton_pfx (fs : FS) (appid : Nat)
    (steam_lib_paths : List String) : Option String :=
  steam_lib_paths.findSome? (fun path =>
    ["steamapps", "SteamApps"].findSome? (fun steamapps_part =>
      let pfx_path :=
        pjoin (pjoin (pjoin (pjoin path steamapps_part) "compatdata")
          (toString appid)) "pfx"
      if fs.isDir pfx_path then some pfx_path else none))

/-- Python `int(x)` on a VDF value: integers pass through, strings are
parsed as decimal naturals (`ValueError` otherwise, matching the claims
of interest; appids are non-negative), other shapes are a
`TypeError`. -/
def pyInt : VDFVal → Except PyErr Nat
  | .int n => .ok n
  | .str s => if isDigitString s then .ok s.toNat! else .error .valueErr
  | _ => .error .typeErr

/-- Python `d[k]` where `d` is the lowercased field dict: missing key is
a `KeyError`. -/
def reqField (d : List (String × VDFVal)) (k : String) :
    Except PyErr VDFVal :=
  match lastLookup d k with
  | some v => .ok v
  | none => .error .keyErr

/-- Extract a string payload; the engine joins `installdir` into a path
(`os.path.join` raises `TypeError` for non-string components) and
assigns `name` (typed `String` in this model). -/
def reqStr : VDFVal → Except PyErr String
  | .str s => .ok s
  | _ => .error .typeErr

/-- `SteamApp.from_appmanifest` (lines 94-144).  `.ok none` models the
documented skip paths (undecodable file, `vdf.loads` SyntaxError, no
top-level key spelled exactly `"AppState"`); `.error` models the
unhandled exceptions.  Only the *fields inside* the `AppState` subtree
are lowercased (line 130); the top-level lookup on line 119 is a plain
case-sensitive `vdf_data["AppState"]`. -/
def from_appmanifest (fs : FS)
    (loads : String → Option (List (String × VDFVal)))
    (steam_lib_paths : List String) (path : String) :
    Except PyErr (Option SteamApp) :=
  match fs.readFile path with
  | .osErr => .error .osErr          -- open() failure: uncaught
  | .decodeErr => .ok none           -- UnicodeDecodeError: skip
  | .content content =>
    match loads content with
    | none => .ok none               -- SyntaxError: skip
    | some vdf_data =>
      match lastLookup vdf_data "AppState" with
      | none => .ok none             -- KeyError: skip ("empty appmanifest")
      | some app_state_v =>
        match app_state_v with
        | .dict entries => do
          let app_state := entries.map (fun kv => (kv.1.toLower, kv.2))
          let appid ← pyInt (← reqField app_state "appid")
          let name ← reqStr (← reqField app_state "name")
          let installdir ← reqStr (← reqField app_state "installdir")
          let pfx_path := find_appid_proton_pfx fs appid steam_lib_paths
          let install_path := pjoin (pjoin (dirname path) "common") installdir
          .ok (some (SteamApp.init name install_path pfx_path (some appid)))
        | _ => .error .attrErr       -- .items() on a non-dict

/-- The final filter-and-sort stage of `get_steam_apps` (lines
729-737): the manifest/shortcut/custom-tool scanning that produces
`collected` is filesystem-bound and abstracted as a parameter; the
returned inventory keeps only apps with a usable prefix or a Proton
marker and sorts ascending by name (Python `list.sort(key=name)`,
code-point string order). -/
def get_steam_apps (fs : FS) (collected : List SteamApp) : List SteamApp :=
  (collected.filter
      (fun app => app.pfx_path_exists fs || app.is_proton fs)).mergeSort
    (fun a b => a.name ≤ b.name)

/-! ## Runtime resolver (steam.py lines 304-346, 349-439, 461-493) -/

/-- The guarded nested lookup used for the two tool mappings (lines
371-387): `vdf_data[k1][k2]...` wrapped in `try/except KeyError` with
`{}` as the fallback.  Non-`KeyError` exceptions propagate. -/
def getMappingOr (config : VDFVal) (path : List String) :
    Except PyErr VDFVal :=
  match getItemChain config path with
  | .error .keyErr => .ok (.dict [])
  | r => r

/-- `mapping.get(key, {}).get("name", None)` (lines 392-397). -/
def mappingGetName (mapping : VDFVal) (key : String) :
    Except PyErr (Option VDFVal) :=
  match pyGet mapping key with
  | .error e => .error e
  | .ok none => .ok none
  | .ok (some entry) => pyGet entry "name"

/-- The compatibility-tool-name selection of `find_steam_proton_app`
(lines 364-403): extract the two mapping subtrees, build the four
prioritized candidates and take the first truthy one (`none` when
every candidate is falsy). -/
def selectCompatToolName (config : VDFVal) (appid : Option Nat) :
    Except PyErr (Option VDFVal) := do
  let tool_mapping ← getMappingOr config
    ["InstallConfigStore", "Software", "Valve", "Steam", "ToolMapping"]
  let compat_tool_mapping ← getMappingOr config
    ["InstallConfigStore", "Software", "Valve", "Steam", "CompatToolMapping"]
  let c1 ← mappingGetName compat_tool_mapping (pyStr appid)
  let c2 ← mappingGetName compat_tool_mapping "0"
  let c3 ← mappingGetName tool_mapping (pyStr appid)
  let c4 ← mappingGetName tool_mapping "0"
  let potential_names := [c1, c2, c3, c4]
  .ok (potential_names.find? vdfTruthy).join

/-- The inner loop of `get_proton_appid` over one section's
`compat_tools` entries (lines 319-342): build the alias list (default
name, plus an `aliases` field that may be a single string or a list —
any other shape raises `TypeError`), return `entry["appid"]` on a
match. -/
def compatToolsLookup (compat_tool_name : VDFVal) :
    List (String × VDFVal) → Except PyErr (Option VDFVal)
  | [] => .ok none
  | (default_name, entry) :: rest =>
    match entry with
    | .dict d =>
      let aliasesE : Except PyErr (List VDFVal) :=
        match lastLookup d "aliases" with
        | none => .ok [VDFVal.str default_name]
        | some (.str s) => .ok [VDFVal.str default_name, .str s]
        | some (.list l) => .ok (VDFVal.str default_name :: l)
        | some _ => .error .typeErr
      match aliasesE with
      | .error e => .error e
      | .ok aliases =>
        if aliases.contains compat_tool_name then
          match lastLookup d "appid" with
          | some v => .ok (some v)
          | none => .error .keyErr
        else compatToolsLookup compat_tool_name rest
    | _ => .error .typeErr           -- non-dict entry: not exercised here

/-- `get_proton_appid` (lines 304-346) without the file read: search
each decoded appinfo section's `appinfo.extended.compat_tools` subtree
for the compat tool name, returning the matching entry's `appid` value
(`none` when no section matches). -/
def get_proton_appid (compat_tool_name : VDFVal) :
    List VDFVal → Except PyErr (Option VDFVal)
  | [] => .ok none
  | section_v :: rest => do
    let a ← pyGetD section_v "appinfo" (.dict [])
    let b ← pyGetD a "extended" (.dict [])
    let c ← pyGet b "compat_tools"
    match c with
    | none => get_proton_appid compat_tool_name rest
    | some cv =>
      if vdfTruthyV cv then
        match cv with
        | .dict compat_tools => do
          match ← compatToolsLookup compat_tool_name compat_tools with
          | some v => .ok (some v)
          | none => get_proton_appid compat_tool_name rest
        | _ => .error .attrErr       -- .items() on a non-dict
      else get_proton_appid compat_tool_name rest

/-- `find_steam_proton_app` (lines 349-439).  `config` is the parsed
`config.vdf` document and `sections` the decoded appinfo sections (both
file reads abstracted).  Note line 427: `if not proton_appid` treats a
resolved appid of `0` like a missing one. -/
def find_steam_proton_app (config : VDFVal) (sections : List VDFVal)
    (steam_apps : List SteamApp) (appid : Option Nat) :
    Except PyErr (Option SteamApp) := do
  match ← selectCompatToolName config appid with
  | none => .ok none                 -- "No Proton installation found"
  | some compat_tool_name =>
    match steam_apps.find? (fun app => vdfEqStr compat_tool_name app.name) with
    | some app => .ok (some app)     -- custom Proton found by name
    | none =>
      match ← get_proton_appid compat_tool_name sections with
      | none => .ok none             -- appid not found in appinfo.vdf
      | some proton_appid =>
        if vdfTruthyV proton_appid then
          .ok (steam_apps.find? (fun app =>
            match proton_appid with
            | .int n => app.appid == some n
            | _ => false))
        else .ok none               -- `if not proton_appid: return None`

/-- `find_proton_app` (lines 461-493).  `env_proton_version` is
`os.environ.get("PROTON_VERSION")`; the override branch is taken only
when the value is truthy, i.e. set *and* non-empty. -/
def find_proton_app (env_proton_version : Option String) (config : VDFVal)
    (sections : List VDFVal) (steam_apps : List SteamApp)
    (appid : Option Nat) : Except PyErr (Option SteamApp) :=
  if envTruthy env_proton_version then
    let proton_version := env_proton_version.getD ""
    .ok (steam_apps.find? (fun app => app.name == proton_version))
  else find_steam_proton_app config sections steam_apps appid

/-! ## Binary catalog reader (steam.py lines 242-301) -/

/-- Little-endian 32-bit read at byte offset `i` (out-of-range bytes
read as 0; all uses are guarded by a length check). -/
def readU32LE (data : List Nat) (i : Nat) : Nat :=
  data.getD i 0 + data.getD (i + 1) 0 * 256 +
    data.getD (i + 2) 0 * 65536 + data.getD (i + 3) 0 * 16777216

/-- The record loop of `get_appinfo_sections` (lines 273-301).  `i` is
the byte cursor; each iteration unpacks a 48-byte record header (a
short read is a `struct.error`), takes `entry_size` from header offset
4 and decodes the following `entry_size - 40` bytes as a binary
Document (`decode` models `vdf.binary_loads`, which can fail in more
than one way).  The `try/except` on lines 284-296 catches *only*
`UnicodeDecodeError`: such a record is skipped and the cursor still
advances by the full declared length; any other decode failure (e.g. a
`SyntaxError` on a malformed document) propagates and aborts the
reader.  The loop returns when the cursor lands exactly 4 bytes before
end-of-file.  `fuel` only bounds the recursion; `get_appinfo_sections`
supplies enough for any terminating run.  (An `entry_size` below 40
would make the Python cursor go backwards; `Nat` subtraction clamps it
instead — no claim involves such a record.) -/
def appinfoLoop (decode : List Nat → Except PyErr VDFVal) (data : List Nat) :
    Nat → Nat → List VDFVal → Except PyErr (List VDFVal)
  | 0, _, _ => .error .structErr
  | fuel + 1, i, sections =>
    if data.length < i + 48 then .error .structErr
    else
      let entry_size := readU32LE data (i + 4)
      let vdf_section_size := entry_size - 40
      let i1 := i + 48
      match decode ((data.drop i1).take vdf_section_size) with
      | .error .unicodeErr =>        -- except UnicodeDecodeError: skip
        let i2 := i1 + vdf_section_size
        if i2 = data.length - 4 then .ok sections
        else appinfoLoop decode data fuel i2 sections
      | .error e => .error e         -- any other failure: uncaught
      | .ok vdf_d =>
        let i2 := i1 + vdf_section_size
        if i2 = data.length - 4 then .ok (sections ++ [vdf_d])
        else appinfoLoop decode data fuel i2 (sections ++ [vdf_d])

/-- `get_appinfo_sections` (lines 246-301): check the 8-byte header and
magic `b"'DV\x07"` (bytes `0x27 0x44 0x56 0x07`), then run the record
loop from offset 8. -/
def get_appinfo_sections (decode : List Nat → Except PyErr VDFVal)
    (data : List Nat) : Except PyErr (List VDFVal) :=
  if data.length < 8 then .error .structErr
  else if data.take 4 ≠ [0x27, 0x44, 0x56, 0x07] then .error .synErr
  else appinfoLoop decode data data.length 8 []

/-! ## Helper lemmas -/

/-- Packing a value into the upper half of a 64-bit word and unpacking
it recovers the value: the low half (`c`) does not leak into the upper
32 bits. -/
theorem pack_unpack (x c : Nat) (hc : c < 2 ^ 32) :
    ((x <<< 32) ||| c) >>> 32 = x := by
  apply Nat.eq_of_testBit_eq
  intro i
  have hcbit : c.testBit (32 + i) = false := by
    apply Nat.testBit_lt_two_pow
    calc c < 2 ^ 32 := hc
      _ ≤ 2 ^ (32 + i) := Nat.pow_le_pow_right (by norm_num) (by omega)
  simp [Nat.testBit_shiftRight, Nat.testBit_lor, Nat.testBit_shiftLeft, hcbit]

/-- Sanity check of the CRC-32 embedding against the standard test
vector: `zlib.crc32(b"123456789") = 0xCBF43926`. -/
theorem crc32_check_value :
    crc32 [0x31, 0x32, 0x33, 0x34, 0x35, 0x36, 0x37, 0x38, 0x39]
      = 0xCBF43926 := by decide

/-! ## C3: synthetic shortcut id -/

/-- C3: the synthetic application id equals the upper 32 bits of the
64-bit screenshot id `((crc32(target ++ name) & 0xffffffff |
0x80000000) << 32) | 0x02000000`, i.e. the CRC-32 of the concatenated
UTF-8 encodings masked to 32 bits with the high bit set, and the
derivation is a deterministic function of `(target, name)`. -/
theorem c3_shortcut_appid (target name : List Nat) :
    get_appid_from_shortcut target name
      = ((((crc32 (target ++ name) &&& 0xffffffff) ||| 0x80000000) <<< 32)
          ||| 0x02000000) >>> 32
    ∧ get_appid_from_shortcut target name
      = ((crc32 (target ++ name) &&& 0xffffffff) ||| 0x80000000)
    ∧ ∀ target2 name2, target2 = target → name2 = name →
        get_appid_from_shortcut target2 name2
          = get_appid_from_shortcut target name := by
  refine ⟨rfl, ?_, ?_⟩
  · show ((((crc32 (target ++ name) &&& 0xffffffff) ||| 0x80000000) <<< 32)
        ||| 0x02000000) >>> 32 = _
    exact pack_unpack _ _ (by norm_num)
  · intro target2 name2 ht hn
    rw [ht, hn]

/-- Witness for C3 at the concrete byte strings `"ab"` and `"c"`. -/
theorem c3_shortcut_appid_witness :
    get_appid_from_shortcut [97, 98] [99]
      = ((crc32 [97, 98, 99] &&& 0xffffffff) ||| 0x80000000)
    ∧ get_appid_from_shortcut [97, 98] [99]
      = get_appid_from_shortcut [97, 98] [99] :=
  ⟨(c3_shortcut_appid [97, 98] [99]).2.1,
   (c3_shortcut_appid [97, 98] [99]).2.2 [97, 98] [99] rfl rfl⟩

/-! ## C4: inventory invariant and ordering -/

/-- C4: every record in the final inventory satisfies
`has_usable_prefix OR is_runtime` (filter on line 731), and the
returned list is sorted ascending by record name under case-sensitive
code-point comparison (sort on line 735). -/
theorem c4_inventory_invariant (fs : FS) (collected : List SteamApp) :
    (∀ app ∈ get_steam_apps fs collected,
        app.pfx_path_exists fs = true ∨ app.is_proton fs = true)
    ∧ List.Sorted (fun a b : SteamApp => a.name ≤ b.name)
        (get_steam_apps fs collected) := by
  constructor
  · intro app hmem
    rw [get_steam_apps, List.mem_mergeSort, List.mem_filter] at hmem
    exact Bool.or_eq_true _ _ ▸ hmem.2 |> Or.imp id id
  · have := @List.sorted_mergeSort SteamApp
      (fun a b : SteamApp => decide (a.name ≤ b.name))
      (fun a b c h1 h2 => by
        simp only [decide_eq_true_eq] at h1 h2 ⊢
        exact le_trans h1 h2)
      (fun a b => by simpa using le_total a.name b.name)
      (collected.filter (fun app => app.pfx_path_exists fs || app.is_proton fs))
    rw [get_steam_apps]
    simpa [List.Sorted] using this

/-- Concrete app and filesystem for the C4 witness: a Proton-marker app
survives the filter. -/
def fsProton : FS :=
  { isDir := fun _ => false
    pathExists := fun p => p == "/i/proton"
    home := "/h"
    readFile := fun _ => .osErr }

/-- A runtime-like record living at `/i`. -/
def appProton : SteamApp :=
  { appid := none, name := "P", pfx_path := none, install_path := "/i" }

/-- Witness for C4: the invariant holds at a concrete surviving
record. -/
theorem c4_inventory_invariant_witness :
    appProton ∈ get_steam_apps fsProton [appProton]
    ∧ (appProton.pfx_path_exists fsProton = true
       ∨ appProton.is_proton fsProton = true) := by
  have hmem : appProton ∈ get_steam_apps fsProton [appProton] := by
    rw [get_steam_apps, List.mem_mergeSort, List.mem_filter]
    exact ⟨List.mem_singleton_self _, by decide⟩
  exact ⟨hmem, (c4_inventory_invariant fsProton [appProton]).1 appProton hmem⟩

/-! ## C10: library enumeration precondition -/

/-- C10: when the install path has neither a `steamapps` nor a
`SteamApps` subdirectory, `get_steam_lib_paths` raises an unhandled
error (the Python local `folders_vdf_path` is never bound, so the later
`open()` raises `NameError`, which the `except OSError` does not
catch) instead of returning the single-element degraded list. -/
theorem c10_lib_paths_unbound (fs : FS)
    (loads : String → Option (List (String × VDFVal))) (steam_path : String)
    (h1 : fs.isDir (pjoin steam_path "steamapps") = false)
    (h2 : fs.isDir (pjoin steam_path "SteamApps") = false) :
    get_steam_lib_paths fs loads steam_path = .error .nameErr := by
  simp [get_steam_lib_paths, h1, h2]

/-- A filesystem with no directories at all. -/
def fsBare : FS :=
  { isDir := fun _ => false
    pathExists := fun _ => false
    home := "/h"
    readFile := fun _ => .osErr }

/-- Witness for C10 at a concrete pathless filesystem. -/
theorem c10_lib_paths_unbound_witness :
    fsBare.isDir (pjoin "/steam" "steamapps") = false
    ∧ fsBare.isDir (pjoin "/steam" "SteamApps") = false
    ∧ get_steam_lib_paths fsBare (fun _ => none) "/steam"
        = .error .nameErr :=
  ⟨rfl, rfl, c10_lib_paths_unbound fsBare (fun _ => none) "/steam" rfl rfl⟩

/-! ## C1: library-folder ordering -/

/-- A library-folders manifest whose digit keys iterate in descending
numeric order. -/
def loadsDesc : String → Option (List (String × VDFVal)) := fun s =>
  if s = "lf" then
    some [("LibraryFolders", .dict [("1", .str "B"), ("0", .str "A")])]
  else none

/-- Counterexample to C1: with keys iterated as `"1" ↦ B, "0" ↦ A` the
enumeration returns `[B, A]`, not the numerically ascending `[A, B]` —
the source performs no sort. -/
theorem c1_sorted_keys_counterexample :
    parse_library_folders loadsDesc "lf" = .ok [.str "B", .str "A"]
    ∧ parse_library_folders loadsDesc "lf" ≠ .ok [.str "A", .str "B"] := by
  refine ⟨rfl, ?_⟩
  intro h
  rw [show parse_library_folders loadsDesc "lf" = .ok [.str "B", .str "A"]
    from rfl] at h
  simp at h

/-- C1 (amended): library enumeration returns the values of the
decimal-digit-string top-level keys in the mapping's iteration order;
the result is ordered by ascending numeric key only when the manifest
iterates its keys in that order. -/
theorem c1_library_iteration_order
    (loads : String → Option (List (String × VDFVal))) (data : String)
    (vdf_data : List (String × VDFVal)) (entries : List (String × VDFVal))
    (hload : loads data = some vdf_data)
    (hlf : lastLookup vdf_data "LibraryFolders" = some (.dict entries)) :
    parse_library_folders loads data
      = .ok ((entries.filter (fun kv => isDigitString kv.1)).map
          (fun kv => kv.2)) := by
  simp [parse_library_folders, hload, hlf]

/-- A library-folders manifest whose digit keys iterate in ascending
numeric order. -/
def loadsAsc : String → Option (List (String × VDFVal)) := fun s =>
  if s = "lf" then
    some [("LibraryFolders",
      .dict [("0", .str "A"), ("1", .str "B"), ("2", .str "C")])]
  else none

/-- Witness for the amended C1: ascending iteration order yields the
ascending result of the spec example. -/
theorem c1_library_iteration_order_witness :
    loadsAsc "lf" = some [("LibraryFolders",
      .dict [("0", .str "A"), ("1", .str "B"), ("2", .str "C")])]
    ∧ parse_library_folders loadsAsc "lf"
        = .ok [.str "A", .str "B", .str "C"] :=
  ⟨rfl,
   (c1_library_iteration_order loadsAsc "lf" _
     [("0", .str "A"), ("1", .str "B"), ("2", .str "C")] rfl rfl).trans rfl⟩

/-! ## C2: AppState casing -/

/-- A per-app manifest document whose state key is spelled
`"appstate"`. -/
def manifestDoc : List (String × VDFVal) :=
  [("appstate", .dict
    [("appid", .str "10"), ("name", .str "Game"),
     ("installdir", .str "Game")])]

/-- Text parser returning `manifestDoc` for the fixture content. -/
def loadsManifest : String → Option (List (String × VDFVal)) := fun s =>
  if s = "acf" then some manifestDoc else none

/-- Filesystem carrying the fixture manifest file. -/
def fsManifest : FS :=
  { isDir := fun _ => false
    pathExists := fun _ => false
    home := "/h"
    readFile := fun p => if p = "m.acf" then .content "acf" else .osErr }

/-- Counterexample to C2: a fully valid manifest whose top-level state
key is spelled `"appstate"` is skipped (`.ok none`), not turned into an
application record — the lookup on line 119 is case-sensitive. -/
theorem c2_lowercase_appstate_counterexample :
    from_appmanifest fsManifest loadsManifest [] "m.acf" = .ok none := rfl

/-- C2 (amended): the inventory builder extracts the top-level
application-state subtree only under the exact spelling `"AppState"`;
a manifest without that exact key is skipped.  Only the field names
inside the subtree are lowercased (line 130). -/
theorem c2_appstate_case_sensitive (fs : FS)
    (loads : String → Option (List (String × VDFVal)))
    (steam_lib_paths : List String) (path content : String)
    (vdf_data : List (String × VDFVal))
    (hread : fs.readFile path = .content content)
    (hload : loads content = some vdf_data)
    (hmiss : lastLookup vdf_data "AppState" = none) :
    from_appmanifest fs loads steam_lib_paths path = .ok none := by
  simp [from_appmanifest, hread, hload, hmiss]

/-- Witness for the amended C2 at the lowercase-spelled fixture. -/
theorem c2_appstate_case_sensitive_witness :
    fsManifest.readFile "m.acf" = .content "acf"
    ∧ loadsManifest "acf" = some manifestDoc
    ∧ lastLookup manifestDoc "AppState" = none
    ∧ from_appmanifest fsManifest loadsManifest [] "m.acf" = .ok none :=
  ⟨rfl, rfl, rfl,
   c2_appstate_case_sensitive fsManifest loadsManifest [] "m.acf" "acf"
     manifestDoc rfl rfl rfl⟩

/-! ## C5: runtime-name candidate priority -/

/-- C5: the resolver selects the runtime name as the first non-empty
entry of the prioritized candidate list `CompatToolMapping[app_id].name,
CompatToolMapping["0"].name, ToolMapping[app_id].name,
ToolMapping["0"].name` (an absent mapping acts as an empty dict), and
when all four candidates are empty the resolution fails with the
no-configured-runtime outcome (`.ok none`, "No Proton installation
found in config.vdf"). -/
theorem c5_candidate_priority (config : VDFVal) (sections : List VDFVal)
    (steam_apps : List SteamApp) (appid : Option Nat)
    (tool_mapping compat_tool_mapping : VDFVal) (c1 c2 c3 c4 : Option VDFVal)
    (htm : getMappingOr config
      ["InstallConfigStore", "Software", "Valve", "Steam", "ToolMapping"]
      = .ok tool_mapping)
    (hctm : getMappingOr config
      ["InstallConfigStore", "Software", "Valve", "Steam", "CompatToolMapping"]
      = .ok compat_tool_mapping)
    (h1 : mappingGetName compat_tool_mapping (pyStr appid) = .ok c1)
    (h2 : mappingGetName compat_tool_mapping "0" = .ok c2)
    (h3 : mappingGetName tool_mapping (pyStr appid) = .ok c3)
    (h4 : mappingGetName tool_mapping "0" = .ok c4) :
    selectCompatToolName config appid
      = .ok ([c1, c2, c3, c4].find? vdfTruthy).join
    ∧ (vdfTruthy c1 = false → vdfTruthy c2 = false → vdfTruthy c3 = false →
       vdfTruthy c4 = false →
       find_steam_proton_app config sections steam_apps appid = .ok none) := by
  have hsel : selectCompatToolName config appid
      = .ok ([c1, c2, c3, c4].find? vdfTruthy).join := by
    simp [selectCompatToolName, htm, hctm, h1, h2, h3, h4,
      Bind.bind, Except.bind]
  refine ⟨hsel, fun e1 e2 e3 e4 => ?_⟩
  have hnone : ([c1, c2, c3, c4].find? vdfTruthy) = none := by
    simp [List.find?, e1, e2, e3, e4]
  simp [find_steam_proton_app, hsel, hnone, Bind.bind, Except.bind]

/-- A configuration with neither `ToolMapping` nor
`CompatToolMapping`. -/
def configEmptyMappings : VDFVal :=
  .dict [("InstallConfigStore", .dict [("Software", .dict
    [("Valve", .dict [("Steam", .dict [])])])])]

/-- Witness for C5: with no mapping entries at all, every candidate is
empty and resolution fails with the no-configured-runtime outcome. -/
theorem c5_candidate_priority_witness :
    getMappingOr configEmptyMappings
      ["InstallConfigStore", "Software", "Valve", "Steam", "ToolMapping"]
      = .ok (.dict [])
    ∧ mappingGetName (.dict []) (pyStr none) = .ok none
    ∧ vdfTruthy none = false
    ∧ find_steam_proton_app configEmptyMappings [] [] none = .ok none :=
  ⟨rfl, rfl, rfl,
   (c5_candidate_priority configEmptyMappings [] [] none (.dict []) (.dict [])
     none none none none rfl rfl rfl rfl rfl rfl).2 rfl rfl rfl rfl⟩

/-! ## C6: runtime-name override -/

/-- A configuration whose default mapping names the runtime `"X"`. -/
def configNamesX : VDFVal :=
  .dict [("InstallConfigStore", .dict [("Software", .dict
    [("Valve", .dict [("Steam", .dict [("CompatToolMapping", .dict
      [("0", .dict [("name", .str "X")])])])])])])]

/-- An inventory record named `"X"`. -/
def appNamedX : SteamApp :=
  { appid := none, name := "X", pfx_path := none, install_path := "/x" }

/-- Counterexample to C6: with the override variable *set to the empty
string*, the resolver does not fail with an override error — Python
`os.environ.get` truthiness treats `""` like unset, so it falls through
to configuration-based resolution and returns a configured app, even
though no inventory record has the override's name. -/
theorem c6_empty_override_counterexample :
    find_proton_app (some "") configNamesX [] [appNamedX] none
      = .ok (some appNamedX)
    ∧ [appNamedX].find? (fun app => app.name == "") = none := ⟨rfl, rfl⟩

/-- C6 (amended): when the runtime-name override variable is set to a
*non-empty* value, the resolver returns the first inventory record
whose name exactly equals the override value when one exists and
otherwise fails, never consulting configuration-based resolution (the
result is the plain inventory name lookup, for every configuration and
catalog); an override set to the empty string is treated as unset. -/
theorem c6_nonempty_override (v : String) (hv : v ≠ "") (config : VDFVal)
    (sections : List VDFVal) (steam_apps : List SteamApp)
    (appid : Option Nat) :
    find_proton_app (some v) config sections steam_apps appid
      = .ok (steam_apps.find? (fun app => app.name == v)) := by
  simp [find_proton_app, envTruthy, hv]

/-- Witness for the amended C6: a present override is returned, an
absent one yields a failure, independently of the configuration. -/
theorem c6_nonempty_override_witness :
    ("X" : String) ≠ ""
    ∧ find_proton_app (some "X") configNamesX [] [appNamedX] none
        = .ok (some appNamedX)
    ∧ find_proton_app (some "Y") configNamesX [] [appNamedX] none
        = .ok none := by
  refine ⟨by decide, ?_, ?_⟩
  · rw [c6_nonempty_override "X" (by decide) configNamesX [] [appNamedX] none]
    rfl
  · rw [c6_nonempty_override "Y" (by decide) configNamesX [] [appNamedX] none]
    rfl

/-! ## C7: install-path override -/

/-- A filesystem where only the default home-directory Steam location
exists. -/
def fsHomeSteam : FS :=
  { isDir := fun p => p == "/home/u/.steam/steam/steamapps"
    pathExists := fun _ => false
    home := "/home/u"
    readFile := fun _ => .osErr }

/-- Counterexample to C7: with the install-path override *set to the
empty string* the locator probes the default home-directory locations
and returns one, although the override path itself is invalid — it does
not report both results as absent. -/
theorem c7_empty_override_counterexample :
    find_steam_path (some "") fsHomeSteam
      = (some "/home/u/.steam/steam", some "/home/u/.steam/steam")
    ∧ (has_steamapps_dir fsHomeSteam "" && has_runtime_dir fsHomeSteam "")
        = false
    ∧ find_steam_path (some "") fsHomeSteam ≠ (none, none) := by
  refine ⟨rfl, rfl, ?_⟩
  intro h
  rw [show find_steam_path (some "") fsHomeSteam
    = (some "/home/u/.steam/steam", some "/home/u/.steam/steam") from rfl] at h
  simp at h

/-- C7 (amended): when the install-path override is set to a *non-empty*
value, the locator returns the override path as both results exactly
when that path has an app-storage subdirectory (either historical
casing) and the runtime-cache subdirectory, and otherwise returns both
results as absent; in either case the default home-directory locations
are never probed (the result depends only on those two checks).  An
override set to the empty string is treated as unset. -/
theorem c7_nonempty_override (p : String) (hp : p ≠ "") (fs : FS) :
    find_steam_path (some p) fs
      = if has_steamapps_dir fs p && has_runtime_dir fs p
        then (some p, some p) else (none, none) := by
  simp only [find_steam_path, envTruthy]
  rw [if_pos (by simpa using hp)]
  rfl

/-- A filesystem where the override path `/s` is a valid install. -/
def fsOverride : FS :=
  { isDir := fun p =>
      p == "/s/steamapps" || p == "/s/ubuntu12_32"
        || p == "/home/u/.steam/steam/steamapps"
    pathExists := fun _ => false
    home := "/home/u"
    readFile := fun _ => .osErr }

/-- Witness for the amended C7: a valid non-empty override is returned
as both results; an invalid non-empty override yields both absent even
though a default home-directory location exists. -/
theorem c7_nonempty_override_witness :
    ("/s" : String) ≠ ""
    ∧ find_steam_path (some "/s") fsOverride = (some "/s", some "/s")
    ∧ find_steam_path (some "/nope") fsOverride = (none, none) := by
  refine ⟨by decide, ?_, ?_⟩
  · rw [c7_nonempty_override "/s" (by decide) fsOverride]
    rfl
  · rw [c7_nonempty_override "/nope" (by decide) fsOverride]
    rfl

/-! ## C8: binary catalog skip-and-advance -/

/-- A two-record catalog: 8-byte header, then two records with
`entry_size = 41` (one payload byte each), then the 4-byte trailer.
The first record's payload is `[9]` (made to fail decoding by the
decoders below), the second's is `[1]` (decodes). -/
def catalogData : List Nat :=
  [0x27, 0x44, 0x56, 0x07, 0, 0, 0, 0]
    ++ ([0, 0, 0, 0, 41, 0, 0, 0] ++ List.replicate 40 0) ++ [9]
    ++ ([0, 0, 0, 0, 41, 0, 0, 0] ++ List.replicate 40 0) ++ [1]
    ++ [0, 0, 0, 0]

/-- A binary-Document decoder that accepts the blob `[1]` and fails
with a malformed-document `SyntaxError` on everything else. -/
def decodeFailSyn : List Nat → Except PyErr VDFVal := fun l =>
  if l = [1] then .ok (.str "ok") else .error .synErr

/-- Counterexample to C8: the claim quantifies over records "whose
Document blob fails to decode" generically, but the `try/except` on
steam.py:284-296 catches only `UnicodeDecodeError`.  At this concrete
aligned catalog the first record's blob fails to decode with a
`SyntaxError`; the reader does not skip it and never reaches the
decodable second record — it aborts with the propagating error. -/
theorem c8_generic_skip_counterexample :
    decodeFailSyn ((catalogData.drop (8 + 48)).take (41 - 40))
      = .error .synErr
    ∧ get_appinfo_sections decodeFailSyn catalogData = .error .synErr :=
  ⟨rfl, rfl⟩

/-- C8 (amended): a record whose Document blob fails to decode with an
invalid-text-encoding failure (`UnicodeDecodeError` — the only
exception caught on steam.py:287) is skipped without failing: the loop
leaves the accumulated sections unchanged and continues (or
terminates) with the byte cursor advanced by the full length declared
in that record's `entry_size` field — 48 header bytes plus
`entry_size - 40` payload bytes — so all subsequent aligned records
are processed exactly as if the bad record were absent.  A blob
failing with any other decode error propagates that error and aborts
the reader. -/
theorem c8_catalog_skip (decode : List Nat → Except PyErr VDFVal)
    (data : List Nat) (fuel i : Nat) (sections : List VDFVal)
    (entry_size : Nat)
    (hlen : i + 48 ≤ data.length)
    (hes : readU32LE data (i + 4) = entry_size)
    (_h40 : 40 ≤ entry_size) :
    (decode ((data.drop (i + 48)).take (entry_size - 40))
        = .error .unicodeErr →
      appinfoLoop decode data (fuel + 1) i sections
        = if i + 48 + (entry_size - 40) = data.length - 4 then .ok sections
          else appinfoLoop decode data fuel (i + 48 + (entry_size - 40))
            sections)
    ∧ (∀ e, e ≠ PyErr.unicodeErr →
        decode ((data.drop (i + 48)).take (entry_size - 40)) = .error e →
        appinfoLoop decode data (fuel + 1) i sections = .error e) := by
  constructor
  · intro hdec
    simp only [appinfoLoop]
    rw [if_neg (by omega), hes, hdec]
  · intro e he hdec
    simp only [appinfoLoop]
    rw [if_neg (by omega), hes, hdec]
    cases e <;> first | rfl | exact absurd rfl he

/-- A binary-Document decoder that accepts the blob `[1]` and fails
with a `UnicodeDecodeError` on everything else. -/
def decodeSkipOne : List Nat → Except PyErr VDFVal := fun l =>
  if l = [1] then .ok (.str "ok") else .error .unicodeErr

/-- Witness for the amended C8 at the concrete catalog: the first
record's blob fails with a `UnicodeDecodeError`, the loop skips it and
the whole reader still returns the second record's document; the same
catalog read with the `SyntaxError`-failing decoder aborts. -/
theorem c8_catalog_skip_witness :
    8 + 48 ≤ catalogData.length
    ∧ readU32LE catalogData (8 + 4) = 41
    ∧ decodeSkipOne ((catalogData.drop (8 + 48)).take (41 - 40))
        = .error .unicodeErr
    ∧ (appinfoLoop decodeSkipOne catalogData (109 + 1) 8 []
        = if 8 + 48 + (41 - 40) = catalogData.length - 4 then .ok []
          else appinfoLoop decodeSkipOne catalogData 109 (8 + 48 + (41 - 40)) [])
    ∧ (PyErr.synErr ≠ PyErr.unicodeErr
       ∧ appinfoLoop decodeFailSyn catalogData (109 + 1) 8 []
           = .error .synErr)
    ∧ get_appinfo_sections decodeSkipOne catalogData = .ok [.str "ok"] :=
  ⟨by decide, by decide, rfl,
   (c8_catalog_skip decodeSkipOne catalogData 109 8 [] 41
     (by decide) (by decide) (by decide)).1 rfl,
   ⟨by decide,
    (c8_catalog_skip decodeFailSyn catalogData 109 8 [] 41
      (by decide) (by decide) (by decide)).2 .synErr (by decide) rfl⟩,
   rfl⟩

/-! ## C9: zero application id -/

/-- C9: constructing an application record with numeric id `0` stores
an absent id, indistinguishable from a record constructed with no id;
no record built by the constructor ever carries `some 0`; and when the
catalog resolves a runtime's application id to `0`,
`find_steam_proton_app` reports not-found (`if not proton_appid` on
line 427 treats `0` like `None`). -/
theorem c9_zero_appid :
    (∀ name install_path pfx,
      SteamApp.init name install_path pfx (some 0)
        = SteamApp.init name install_path pfx none)
    ∧ (∀ name install_path pfx a,
        (SteamApp.init name install_path pfx a).appid ≠ some 0)
    ∧ (∀ config sections steam_apps appid nm,
        selectCompatToolName config appid = .ok (some nm) →
        steam_apps.find? (fun app => vdfEqStr nm app.name) = none →
        get_proton_appid nm sections = .ok (some (.int 0)) →
        find_steam_proton_app config sections steam_apps appid = .ok none) := by
  refine ⟨fun name ip pfx => rfl, ?_, ?_⟩
  · intro name ip pfx a
    cases a with
    | none => simp [SteamApp.init]
    | some n =>
      by_cases hn : n = 0 <;> simp [SteamApp.init, hn]
  · intro config sections steam_apps appid nm hsel hfind hcat
    simp [find_steam_proton_app, hsel, hfind, hcat, Bind.bind, Except.bind,
      vdfTruthyV]

/-- A configuration whose default mapping names `"proton_x"`. -/
def configProtonX : VDFVal :=
  .dict [("InstallConfigStore", .dict [("Software", .dict
    [("Valve", .dict [("Steam", .dict [("CompatToolMapping", .dict
      [("0", .dict [("name", .str "proton_x")])])])])])])]

/-- An appinfo catalog section mapping `"proton_x"` to appid `0`. -/
def sectionsProtonX : List VDFVal :=
  [.dict [("appinfo", .dict [("extended", .dict [("compat_tools", .dict
    [("proton_x", .dict [("appid", .int 0)])])])])]]

/-- Witness for C9: a runtime whose catalog-resolved application id is
`0` is reported as not found. -/
theorem c9_zero_appid_witness :
    selectCompatToolName configProtonX none = .ok (some (.str "proton_x"))
    ∧ get_proton_appid (.str "proton_x") sectionsProtonX
        = .ok (some (.int 0))
    ∧ SteamApp.init "a" "/a" none (some 0) = SteamApp.init "a" "/a" none none
    ∧ find_steam_proton_app configProtonX sectionsProtonX [] none
        = .ok none :=
  ⟨rfl, rfl, (c9_zero_appid.1 "a" "/a" none),
   c9_zero_appid.2.2 configProtonX sectionsProtonX [] none (.str "proton_x")
     rfl rfl rfl⟩
